import Mathlib

/-!
Verification of the loan-against-asset eligibility checker.

The repository carries two implementations of the rule-evaluation engine:
`src/app.py` (a Flask JSON API, namespace `App` below) and
`src/streamlit_app.py` (a Streamlit form UI, namespace `Streamlit` below).

Modelling conventions:
* Python numbers are modelled as exact rationals (`ℚ`); Python strings as
  `String` (the program compares only ASCII strings, so `str.lower` and
  `str.upper` are modelled by ASCII case-mapping functions below).
* Each distinct `errors.append("...")` site is modelled as a distinct
  constructor of a violation datatype; the message templates of the two
  files differ textually but describe the same constraints, so the two
  implementations share the violation datatypes.
* The engines' outputs are modelled by their numeric content: the currency
  and percent display strings the sources build from `max_eligible`,
  `ltv_used` and `ltv_limit` are presentation formatting of exactly those
  values, which the result record carries directly.  The echoed `location`
  key of the gold JSON response is likewise input echo and not modelled.
* A Python expression that can raise (division by zero) is embedded in
  `Option`, with `none` for the raised exception.
-/

/-- ASCII lower-casing of one character, modelling what Python `str.lower`
does on the ASCII strings this program compares. -/
def lowerChar (c : Char) : Char :=
  if c.isUpper then Char.ofNat (c.toNat + 32) else c

/-- Python `s.lower()` restricted to ASCII. -/
def lowerStr (s : String) : String :=
  String.mk (s.data.map lowerChar)

/-- ASCII upper-casing of one character, modelling Python `str.upper`. -/
def upperChar (c : Char) : Char :=
  if c.isLower then Char.ofNat (c.toNat - 32) else c

/-- Python `s.upper()` restricted to ASCII. -/
def upperStr (s : String) : String :=
  String.mk (s.data.map upperChar)

/-- The three `errors.append` sites of the gold validators: purity below the
configured minimum, the loan-to-value check, and the absolute cap check. -/
inductive GoldViolation where
  | purityBelowMin
  | ltvExceedsLimit
  | loanExceedsMax
deriving DecidableEq

/-- The `errors.append` sites of the property validators: the circle-rate
check, the loan-to-value check, and (streamlit only) the absolute cap. -/
inductive PropertyViolation where
  | circleRateDeviation
  | ltvExceedsLimit
  | loanExceedsMax
deriving DecidableEq

/-- The `errors.append` sites of the share validators: the eligible-index
check (app.py only), the loan-to-value check, and the absolute cap
(streamlit only). -/
inductive SharesViolation where
  | indexNotEligible
  | ltvExceedsLimit
  | loanExceedsMax
deriving DecidableEq

/-- The numeric content both engines return: `approved`, the used and limit
loan-to-value figures, the maximum eligible amount, and the violation list.
`ltv_used` is a percentage (as in both sources); `ltv_limit` is the applied
ceiling as a fraction (the sources display `ltv_limit * 100` as a string). -/
structure ValidationResult (V : Type) where
  approved : Bool
  ltv_used : ℚ
  ltv_limit : ℚ
  max_eligible : ℚ
  errors : List V
deriving DecidableEq

namespace App

/-- Fields of `RBI_RULES['gold']` in `src/app.py` (`tenure_months` is never
read by any validator and is omitted). -/
structure GoldRules where
  urban_ltv : ℚ
  rural_ltv : ℚ
  min_purity : ℚ
  max_amount : ℚ

/-- The `gold` entry of `RBI_RULES` in `src/app.py`. -/
def RBI_RULES_gold : GoldRules :=
  { urban_ltv := 0.75, rural_ltv := 0.90, min_purity := 18, max_amount := 2000000 }

/-- Fields of `RBI_RULES['property']` in `src/app.py`. -/
structure PropertyRules where
  standard_ltv : ℚ
  min_ltv : ℚ
  max_ltv : ℚ
  circle_rate_threshold : ℚ

/-- The `property` entry of `RBI_RULES` in `src/app.py`. -/
def RBI_RULES_property : PropertyRules :=
  { standard_ltv := 0.60, min_ltv := 0.50, max_ltv := 0.70, circle_rate_threshold := 0.90 }

/-- Fields of `RBI_RULES['shares']` in `src/app.py`. -/
structure SharesRules where
  ltv : ℚ
  eligible_indices : List String

/-- The `shares` entry of `RBI_RULES` in `src/app.py`. -/
def RBI_RULES_shares : SharesRules :=
  { ltv := 0.50, eligible_indices := ["NIFTY50"] }

/-- The request body `data` of `/api/check`: every key a validator reads via
`data.get(key, default)` is a field here (a request missing a key behaves
exactly as one carrying the default, so the dict is modelled as a total
record). -/
structure RequestData where
  asset_value : ℚ
  loan_amount : ℚ
  location : String
  purity : ℚ
  circle_rate : ℚ
  share_index : String

/-- Model of `validate_gold_loan` in `src/app.py`. -/
def validate_gold_loan (data : RequestData) : ValidationResult GoldViolation :=
  let rules := RBI_RULES_gold
  let errors : List GoldViolation :=
    if data.purity < rules.min_purity then [GoldViolation.purityBelowMin] else []
  let location := lowerStr data.location
  let ltv_limit := if location = "urban" then rules.urban_ltv else rules.rural_ltv
  let asset_value := data.asset_value
  let loan_amount := data.loan_amount
  let errors :=
    if asset_value > 0 then
      if loan_amount / asset_value > ltv_limit then errors ++ [GoldViolation.ltvExceedsLimit]
      else errors
    else errors
  let errors :=
    if loan_amount > rules.max_amount then errors ++ [GoldViolation.loanExceedsMax] else errors
  let approved := errors.isEmpty
  let max_eligible := asset_value * ltv_limit
  { approved := approved
    ltv_used := if asset_value > 0 then loan_amount / asset_value * 100 else 0
    ltv_limit := ltv_limit
    max_eligible := max_eligible
    errors := errors }

/-- Model of `validate_property_mortgage` in `src/app.py`.  The returned
`ltv_limit` is the literal string `'60%'` in the source, i.e. exactly
`standard_ltv * 100`; note the source has no maximum-amount check and the
loan-to-value check compares against `max_ltv = 0.70`, not against the
reported `standard_ltv = 0.60`. -/
def validate_property_mortgage (data : RequestData) : ValidationResult PropertyViolation :=
  let rules := RBI_RULES_property
  let asset_value := data.asset_value
  let loan_amount := data.loan_amount
  let circle_rate := data.circle_rate
  let errors : List PropertyViolation :=
    if circle_rate > 0 ∧ asset_value > 0 then
      if circle_rate < asset_value * rules.circle_rate_threshold then
        [PropertyViolation.circleRateDeviation]
      else []
    else []
  let errors :=
    if asset_value > 0 then
      if loan_amount / asset_value > rules.max_ltv then
        errors ++ [PropertyViolation.ltvExceedsLimit]
      else errors
    else errors
  let approved := errors.isEmpty
  let max_eligible := asset_value * rules.standard_ltv
  { approved := approved
    ltv_used := if asset_value > 0 then loan_amount / asset_value * 100 else 0
    ltv_limit := rules.standard_ltv
    max_eligible := max_eligible
    errors := errors }

/-- Model of `validate_share_pledge` in `src/app.py`: the returned
`ltv_limit` is the literal string `'50%'`, i.e. `rules.ltv * 100`; the
source has no maximum-amount check. -/
def validate_share_pledge (data : RequestData) : ValidationResult SharesViolation :=
  let rules := RBI_RULES_shares
  let asset_value := data.asset_value
  let loan_amount := data.loan_amount
  let share_index := upperStr data.share_index
  let errors : List SharesViolation :=
    if share_index ∉ rules.eligible_indices then [SharesViolation.indexNotEligible] else []
  let errors :=
    if asset_value > 0 then
      if loan_amount / asset_value > rules.ltv then
        errors ++ [SharesViolation.ltvExceedsLimit]
      else errors
    else errors
  let approved := errors.isEmpty
  let max_eligible := asset_value * rules.ltv
  { approved := approved
    ltv_used := if asset_value > 0 then loan_amount / asset_value * 100 else 0
    ltv_limit := rules.ltv
    max_eligible := max_eligible
    errors := errors }

/-- The possible evaluation payloads of the `/api/check` route (the route
then merges in citation metadata, which no claim concerns). -/
inductive CheckOutcome where
  | goldResult (r : ValidationResult GoldViolation)
  | propertyResult (r : ValidationResult PropertyViolation)
  | sharesResult (r : ValidationResult SharesViolation)
deriving DecidableEq

/-- Model of the dispatch in `check_eligibility` in `src/app.py`:
`asset_type = data.get('asset_type', 'gold').lower()` followed by
`validators.get(asset_type, validate_gold_loan)`.  A key other than
`'property'` and `'shares'` — whether `'gold'` or any unknown string —
selects `validate_gold_loan`, since that is the dict lookup's default. -/
def check_eligibility (asset_type : String) (data : RequestData) : CheckOutcome :=
  let t := lowerStr asset_type
  if t = "property" then CheckOutcome.propertyResult (validate_property_mortgage data)
  else if t = "shares" then CheckOutcome.sharesResult (validate_share_pledge data)
  else CheckOutcome.goldResult (validate_gold_loan data)

end App

namespace Streamlit

/-- Fields of `RBI_RULES["gold_loan"]` in `src/streamlit_app.py`. -/
structure GoldLoanRules where
  max_ltv_urban : ℚ
  max_ltv_rural : ℚ
  purity_min : ℚ
  max_loan_amount : ℚ

/-- The `gold_loan` entry of `RBI_RULES` in `src/streamlit_app.py`. -/
def RBI_RULES_gold_loan : GoldLoanRules :=
  { max_ltv_urban := 0.75, max_ltv_rural := 0.70, purity_min := 18, max_loan_amount := 10000000 }

/-- Fields of `RBI_RULES["property_mortgage"]` in `src/streamlit_app.py`. -/
structure PropertyMortgageRules where
  max_ltv : ℚ
  circle_rate_tolerance : ℚ
  max_loan_amount : ℚ

/-- The `property_mortgage` entry of `RBI_RULES` in `src/streamlit_app.py`. -/
def RBI_RULES_property_mortgage : PropertyMortgageRules :=
  { max_ltv := 0.80, circle_rate_tolerance := 0.10, max_loan_amount := 50000000 }

/-- Fields of `RBI_RULES["share_pledge"]` in `src/streamlit_app.py`. -/
structure SharePledgeRules where
  max_ltv_nifty50 : ℚ
  max_ltv_nifty100 : ℚ
  max_ltv_other : ℚ
  max_loan_amount : ℚ

/-- The `share_pledge` entry of `RBI_RULES` in `src/streamlit_app.py`. -/
def RBI_RULES_share_pledge : SharePledgeRules :=
  { max_ltv_nifty50 := 0.50, max_ltv_nifty100 := 0.45
    max_ltv_other := 0.40, max_loan_amount := 5000000 }

/-- Model of `validate_gold` in `src/streamlit_app.py`.  The source returns
the tuple `(approved, max_eligible, ltv_used, errors, ltv_limit_str)`, with
`ltv_limit_str` the percent rendering of `ltv_limit`; its loan-to-value
check is `loan_amount > max_eligible`, performed whatever `asset_value`
is. -/
def validate_gold (asset_value loan_amount : ℚ) (location : String) (purity : ℚ) :
    ValidationResult GoldViolation :=
  let rules := RBI_RULES_gold_loan
  let errors : List GoldViolation :=
    if purity < rules.purity_min then [GoldViolation.purityBelowMin] else []
  let ltv_limit := if location = "Urban" then rules.max_ltv_urban else rules.max_ltv_rural
  let ltv_used := if asset_value > 0 then loan_amount / asset_value * 100 else 0
  let max_eligible := asset_value * ltv_limit
  let errors :=
    if loan_amount > max_eligible then errors ++ [GoldViolation.ltvExceedsLimit] else errors
  let errors :=
    if loan_amount > rules.max_loan_amount then errors ++ [GoldViolation.loanExceedsMax]
    else errors
  { approved := errors.isEmpty
    ltv_used := ltv_used
    ltv_limit := ltv_limit
    max_eligible := max_eligible
    errors := errors }

/-- Model of `validate_property` in `src/streamlit_app.py`.  Inside the
`asset_value > 0` guard the source evaluates
`abs(asset_value - circle_rate) / circle_rate` unconditionally, so
`circle_rate == 0` there raises `ZeroDivisionError`; the raised exception is
modelled as `none`. -/
def validate_property (asset_value loan_amount circle_rate : ℚ) :
    Option (ValidationResult PropertyViolation) :=
  let rules := RBI_RULES_property_mortgage
  let varianceErrors : Option (List PropertyViolation) :=
    if asset_value > 0 then
      if circle_rate = 0 then none
      else if |asset_value - circle_rate| / circle_rate > rules.circle_rate_tolerance then
        some [PropertyViolation.circleRateDeviation]
      else some []
    else some []
  varianceErrors.map fun errors =>
    let ltv_limit := rules.max_ltv
    let ltv_used := if asset_value > 0 then loan_amount / asset_value * 100 else 0
    let max_eligible := asset_value * ltv_limit
    let errors :=
      if loan_amount > max_eligible then errors ++ [PropertyViolation.ltvExceedsLimit]
      else errors
    let errors :=
      if loan_amount > rules.max_loan_amount then errors ++ [PropertyViolation.loanExceedsMax]
      else errors
    { approved := errors.isEmpty
      ltv_used := ltv_used
      ltv_limit := ltv_limit
      max_eligible := max_eligible
      errors := errors }

/-- Model of `validate_shares` in `src/streamlit_app.py`. -/
def validate_shares (asset_value loan_amount : ℚ) (share_index : String) :
    ValidationResult SharesViolation :=
  let rules := RBI_RULES_share_pledge
  let errors : List SharesViolation := []
  let ltv_limit :=
    if share_index = "NIFTY50" then rules.max_ltv_nifty50
    else if share_index = "NIFTY100" then rules.max_ltv_nifty100
    else rules.max_ltv_other
  let ltv_used := if asset_value > 0 then loan_amount / asset_value * 100 else 0
  let max_eligible := asset_value * ltv_limit
  let errors :=
    if loan_amount > max_eligible then errors ++ [SharesViolation.ltvExceedsLimit] else errors
  let errors :=
    if loan_amount > rules.max_loan_amount then errors ++ [SharesViolation.loanExceedsMax]
    else errors
  { approved := errors.isEmpty
    ltv_used := ltv_used
    ltv_limit := ltv_limit
    max_eligible := max_eligible
    errors := errors }

end Streamlit

/-- Claim C1: in both implementations and for every asset class, the
validator returns `approved = true` exactly when its violation list is
empty; no other condition influences approval.  For the streamlit property
validator this holds whenever the evaluation returns at all. -/
theorem claim1_approved_iff_no_violations :
    (∀ data : App.RequestData,
        ((App.validate_gold_loan data).approved = true ↔
          (App.validate_gold_loan data).errors = []) ∧
        ((App.validate_property_mortgage data).approved = true ↔
          (App.validate_property_mortgage data).errors = []) ∧
        ((App.validate_share_pledge data).approved = true ↔
          (App.validate_share_pledge data).errors = [])) ∧
    (∀ asset_value loan_amount purity : ℚ, ∀ location : String,
        ((Streamlit.validate_gold asset_value loan_amount location purity).approved = true ↔
          (Streamlit.validate_gold asset_value loan_amount location purity).errors = [])) ∧
    (∀ asset_value loan_amount circle_rate : ℚ,
        ∀ r ∈ Streamlit.validate_property asset_value loan_amount circle_rate,
          (r.approved = true ↔ r.errors = [])) ∧
    (∀ asset_value loan_amount : ℚ, ∀ share_index : String,
        ((Streamlit.validate_shares asset_value loan_amount share_index).approved = true ↔
          (Streamlit.validate_shares asset_value loan_amount share_index).errors = [])) := by
  refine ⟨fun data => ⟨?_, ?_, ?_⟩, fun av la p loc => ?_, fun av la cr r hr => ?_,
    fun av la idx => ?_⟩
  · simp [App.validate_gold_loan, List.isEmpty_iff]
  · simp [App.validate_property_mortgage, List.isEmpty_iff]
  · simp [App.validate_share_pledge, List.isEmpty_iff]
  · simp [Streamlit.validate_gold, List.isEmpty_iff]
  · simp only [Streamlit.validate_property, Option.mem_def, Option.map_eq_some'] at hr
    obtain ⟨e, _, rfl⟩ := hr
    simp [List.isEmpty_iff]
  · simp [Streamlit.validate_shares, List.isEmpty_iff]

/-- Claim C2 counterexample: on the identical rural gold request
(assetValue 100000, loanAmount 80000, purity 22) the Flask validator
approves (its rural ceiling is 0.90) while the Streamlit validator rejects
with a loan-to-value violation (its rural ceiling is 0.70), so the two
presentation layers do not compute the same evaluation. -/
theorem claim2_counterexample :
    (App.validate_gold_loan
        { asset_value := 100000, loan_amount := 80000, location := "Rural"
          purity := 22, circle_rate := 0, share_index := "NIFTY50" }).approved = true ∧
    (Streamlit.validate_gold 100000 80000 "Rural" 22).approved = false ∧
    (Streamlit.validate_gold 100000 80000 "Rural" 22).errors
      = [GoldViolation.ltvExceedsLimit] := by
  have h : lowerStr "Rural" ≠ "urban" := by decide
  have h2 : "Rural" ≠ "Urban" := by decide
  refine ⟨?_, ?_, ?_⟩
  · norm_num [App.validate_gold_loan, App.RBI_RULES_gold, h]
  · norm_num [Streamlit.validate_gold, Streamlit.RBI_RULES_gold_loan, h2]
  · norm_num [Streamlit.validate_gold, Streamlit.RBI_RULES_gold_loan, h2]

/-- Claim C2 amended: the two layers are not interchangeable — their rule
constants drift (rural gold ceiling 0.90 vs 0.70, gold cap 2000000 vs
10000000, and the property validators differ throughout).  What does hold
for gold: on an identical urban request with a positive asset value and a
loan amount within the stricter cap (2000000), the Flask and Streamlit
validators agree on the approval decision, on the violation list, and on
the applied loan-to-value ceiling. -/
theorem claim2_amended_urban_gold_agreement (asset_value loan_amount purity : ℚ)
    (hav : asset_value > 0) (hcap : loan_amount ≤ 2000000) :
    ((App.validate_gold_loan
        { asset_value := asset_value, loan_amount := loan_amount, location := "Urban"
          purity := purity, circle_rate := 0, share_index := "NIFTY50" }).approved
      = (Streamlit.validate_gold asset_value loan_amount "Urban" purity).approved) ∧
    ((App.validate_gold_loan
        { asset_value := asset_value, loan_amount := loan_amount, location := "Urban"
          purity := purity, circle_rate := 0, share_index := "NIFTY50" }).errors
      = (Streamlit.validate_gold asset_value loan_amount "Urban" purity).errors) ∧
    ((App.validate_gold_loan
        { asset_value := asset_value, loan_amount := loan_amount, location := "Urban"
          purity := purity, circle_rate := 0, share_index := "NIFTY50" }).ltv_limit
      = (Streamlit.validate_gold asset_value loan_amount "Urban" purity).ltv_limit) := by
  have hu : lowerStr "Urban" = "urban" := by decide
  have hiff : loan_amount / asset_value > (0.75 : ℚ) ↔ loan_amount > asset_value * 0.75 := by
    rw [gt_iff_lt, gt_iff_lt, lt_div_iff₀ hav, mul_comm]
  have hcap1 : ¬ loan_amount > (2000000 : ℚ) := not_lt.mpr hcap
  have hcap2 : ¬ loan_amount > (10000000 : ℚ) := by
    rw [not_lt]
    linarith
  simp only [App.validate_gold_loan, Streamlit.validate_gold, App.RBI_RULES_gold,
    Streamlit.RBI_RULES_gold_loan, hu, hav, hcap1, hcap2, if_true, if_false, ite_true,
    ite_false, reduceIte, if_pos, if_neg, not_false_eq_true]
  by_cases hp : purity < (18 : ℚ) <;> by_cases hl : loan_amount > asset_value * 0.75 <;>
    simp [hp, hl, hiff]

/-- Witness for claim C2 amended at the concrete boundary request
(assetValue 100000, loanAmount 75000, purity 22). -/
theorem claim2_amended_witness :
    (App.validate_gold_loan
        { asset_value := 100000, loan_amount := 75000, location := "Urban"
          purity := 22, circle_rate := 0, share_index := "NIFTY50" }).errors
      = (Streamlit.validate_gold 100000 75000 "Urban" 22).errors :=
  (claim2_amended_urban_gold_agreement 100000 75000 22 (by norm_num) (by norm_num)).2.1

/-- Claim C3 counterexample: in the Flask property validator the ceiling the
loan-to-value check applies is 0.70 (a loan of 70000 on 100000 passes, one
of 70001 violates), while the reported limit and the returned maximum
eligible amount use 0.60, so maxEligibleAmount = 60000 is not assetValue
times the ceiling applied in the check (100000 × 0.70 = 70000). -/
theorem claim3_counterexample :
    (App.validate_property_mortgage
        { asset_value := 100000, loan_amount := 70000, location := "urban"
          purity := 0, circle_rate := 100000, share_index := "NIFTY50" }).errors = [] ∧
    (App.validate_property_mortgage
        { asset_value := 100000, loan_amount := 70001, location := "urban"
          purity := 0, circle_rate := 100000, share_index := "NIFTY50" }).errors
      = [PropertyViolation.ltvExceedsLimit] ∧
    (App.validate_property_mortgage
        { asset_value := 100000, loan_amount := 70000, location := "urban"
          purity := 0, circle_rate := 100000, share_index := "NIFTY50" }).max_eligible
      = 60000 ∧
    (60000 : ℚ) ≠ 100000 * 0.70 := by
  refine ⟨?_, ?_, ?_, by norm_num⟩ <;>
    norm_num [App.validate_property_mortgage, App.RBI_RULES_property]

/-- Claim C3 amended: in every validator of both implementations the
returned maximum eligible amount equals assetValue times the returned
`ltv_limit` (the ceiling reported as ltvLimitPercent).  In the Flask
property validator that reported ceiling (0.60) is not the ceiling the
loan-to-value check applies (0.70), so the claim's identification of the
two ceilings fails there; everywhere else they coincide. -/
theorem claim3_amended_reported_limit :
    (∀ data : App.RequestData,
        (App.validate_gold_loan data).max_eligible
            = data.asset_value * (App.validate_gold_loan data).ltv_limit ∧
        (App.validate_property_mortgage data).max_eligible
            = data.asset_value * (App.validate_property_mortgage data).ltv_limit ∧
        (App.validate_share_pledge data).max_eligible
            = data.asset_value * (App.validate_share_pledge data).ltv_limit) ∧
    (∀ asset_value loan_amount purity : ℚ, ∀ location : String,
        (Streamlit.validate_gold asset_value loan_amount location purity).max_eligible
          = asset_value *
            (Streamlit.validate_gold asset_value loan_amount location purity).ltv_limit) ∧
    (∀ asset_value loan_amount circle_rate : ℚ,
        ∀ r ∈ Streamlit.validate_property asset_value loan_amount circle_rate,
          r.max_eligible = asset_value * r.ltv_limit) ∧
    (∀ asset_value loan_amount : ℚ, ∀ share_index : String,
        (Streamlit.validate_shares asset_value loan_amount share_index).max_eligible
          = asset_value *
            (Streamlit.validate_shares asset_value loan_amount share_index).ltv_limit) := by
  refine ⟨fun data => ⟨?_, ?_, ?_⟩, fun av la p loc => ?_, fun av la cr r hr => ?_,
    fun av la idx => ?_⟩
  · simp [App.validate_gold_loan]
  · simp [App.validate_property_mortgage]
  · simp [App.validate_share_pledge]
  · simp [Streamlit.validate_gold]
  · simp only [Streamlit.validate_property, Option.mem_def, Option.map_eq_some'] at hr
    obtain ⟨e, _, rfl⟩ := hr
    simp
  · simp [Streamlit.validate_shares]

/-- Claim C4 counterexample: the Streamlit gold validator does not skip its
loan-to-value check when assetValue = 0 — at assetValue 0 and loanAmount 1
it records the loan-to-value violation (1 > 0 × limit), though it still
reports ltvUsedPercent = 0. -/
theorem claim4_counterexample :
    (Streamlit.validate_gold 0 1 "Urban" 22).errors = [GoldViolation.ltvExceedsLimit] ∧
    (Streamlit.validate_gold 0 1 "Urban" 22).ltv_used = 0 := by
  constructor <;> norm_num [Streamlit.validate_gold, Streamlit.RBI_RULES_gold_loan]

/-- Claim C4 amended: with assetValue = 0 both gold validators report
ltvUsedPercent = 0 and neither fails; the Flask validator records no
loan-to-value violation for any loanAmount (its check is guarded by
assetValue > 0), but the Streamlit validator — whose check is
loanAmount > assetValue × limit — records a loan-to-value violation
exactly when loanAmount > 0. -/
theorem claim4_amended_zero_asset_value :
    (∀ loan_amount purity : ℚ, ∀ location index : String,
        (App.validate_gold_loan
            { asset_value := 0, loan_amount := loan_amount, location := location
              purity := purity, circle_rate := 0, share_index := index }).ltv_used = 0 ∧
        GoldViolation.ltvExceedsLimit ∉
          (App.validate_gold_loan
            { asset_value := 0, loan_amount := loan_amount, location := location
              purity := purity, circle_rate := 0, share_index := index }).errors) ∧
    (∀ loan_amount purity : ℚ, ∀ location : String,
        (Streamlit.validate_gold 0 loan_amount location purity).ltv_used = 0 ∧
        (GoldViolation.ltvExceedsLimit ∈
            (Streamlit.validate_gold 0 loan_amount location purity).errors ↔
          loan_amount > 0)) := by
  constructor
  · intro la p loc idx
    constructor
    · simp [App.validate_gold_loan]
    · simp only [App.validate_gold_loan]
      split_ifs <;> simp_all
  · intro la p loc
    constructor
    · simp [Streamlit.validate_gold]
    · simp only [Streamlit.validate_gold, zero_mul]
      split_ifs <;> simp_all

/-- Claim C5 counterexample: the Streamlit property validator guards the
circle-rate computation only by assetValue > 0, so the request
(assetValue 100, loanAmount 0, circleRate 0) divides by zero — the
evaluation raises ZeroDivisionError instead of skipping the check and
returning a result. -/
theorem claim5_counterexample :
    Streamlit.validate_property 100 0 0 = none := by
  norm_num [Streamlit.validate_property]

/-- Claim C5 amended: in the Streamlit property validator the evaluation
fails (ZeroDivisionError) exactly when assetValue > 0 and circleRate = 0,
because the symmetric relative variance |assetValue − circleRate| /
circleRate is computed under a guard on assetValue alone; in the Flask
property validator the circle-rate check is indeed performed only when both
circleRate > 0 and assetValue > 0 and never divides, but it is the
one-sided test circleRate < 0.90 × assetValue, not a symmetric variance
against a tolerance. -/
theorem claim5_amended_circle_rate_guards :
    (∀ asset_value loan_amount circle_rate : ℚ,
        (Streamlit.validate_property asset_value loan_amount circle_rate = none ↔
          (asset_value > 0 ∧ circle_rate = 0))) ∧
    (∀ asset_value loan_amount circle_rate : ℚ,
        ∀ r ∈ Streamlit.validate_property asset_value loan_amount circle_rate,
          (PropertyViolation.circleRateDeviation ∈ r.errors ↔
            (asset_value > 0 ∧
              |asset_value - circle_rate| / circle_rate >
                Streamlit.RBI_RULES_property_mortgage.circle_rate_tolerance))) ∧
    (∀ data : App.RequestData,
        (PropertyViolation.circleRateDeviation ∈
            (App.validate_property_mortgage data).errors ↔
          ((data.circle_rate > 0 ∧ data.asset_value > 0) ∧
            data.circle_rate <
              data.asset_value * App.RBI_RULES_property.circle_rate_threshold))) := by
  refine ⟨fun av la cr => ?_, fun av la cr r hr => ?_, fun data => ?_⟩
  · simp only [Streamlit.validate_property, Option.map_eq_none']
    split_ifs <;> simp_all
  · simp only [Streamlit.validate_property, Option.mem_def, Option.map_eq_some'] at hr
    obtain ⟨e, he, rfl⟩ := hr
    revert he
    split_ifs <;> intro he <;> first
      | exact he.elim
      | exact Option.noConfusion he
      | (injection he with he2; subst he2; simp_all)
  · simp only [App.validate_property_mortgage]
    split_ifs <;> simp_all

/-- Claim C6 counterexample: a request with the unknown asset class
"crypto" and a negative loanAmount (−5) is not answered with an
invalid-request outcome — the dispatch falls back to the gold validator,
which evaluates it and approves it. -/
theorem claim6_counterexample :
    App.check_eligibility "crypto"
        { asset_value := 100, loan_amount := -5, location := "urban"
          purity := 22, circle_rate := 0, share_index := "NIFTY50" }
      = App.CheckOutcome.goldResult
          (App.validate_gold_loan
            { asset_value := 100, loan_amount := -5, location := "urban"
              purity := 22, circle_rate := 0, share_index := "NIFTY50" }) ∧
    (App.validate_gold_loan
        { asset_value := 100, loan_amount := -5, location := "urban"
          purity := 22, circle_rate := 0, share_index := "NIFTY50" }).approved = true := by
  have h1 : lowerStr "crypto" ≠ "property" := by decide
  have h2 : lowerStr "crypto" ≠ "shares" := by decide
  have h3 : lowerStr "urban" = "urban" := by decide
  constructor
  · simp [App.check_eligibility, h1, h2]
  · norm_num [App.validate_gold_loan, App.RBI_RULES_gold, h3]

/-- Claim C6 amended: there is no invalid-request outcome.  Every asset
type whose lower-cased form is neither "property" nor "shares" — the known
key "gold" and every unknown string alike — is silently dispatched to the
gold validator (the `validators.get` default), which evaluates the request
normally; in particular a negative loanAmount is evaluated and can be
silently approved. -/
theorem claim6_amended_default_dispatch (asset_type : String) (data : App.RequestData)
    (h1 : lowerStr asset_type ≠ "property") (h2 : lowerStr asset_type ≠ "shares") :
    App.check_eligibility asset_type data
      = App.CheckOutcome.goldResult (App.validate_gold_loan data) := by
  simp [App.check_eligibility, h1, h2]

/-- Witness for claim C6 amended at the concrete unknown asset type
"crypto". -/
theorem claim6_amended_witness :
    App.check_eligibility "crypto"
        { asset_value := 100000, loan_amount := 50000, location := "urban"
          purity := 22, circle_rate := 0, share_index := "NIFTY50" }
      = App.CheckOutcome.goldResult
          (App.validate_gold_loan
            { asset_value := 100000, loan_amount := 50000, location := "urban"
              purity := 22, circle_rate := 0, share_index := "NIFTY50" }) :=
  claim6_amended_default_dispatch "crypto" _ (by decide) (by decide)

/-- Claim C7 counterexample: the Flask property and share validators have no
maximum-amount check at all — a property loan of 600000000 (far above the
repository's only configured property cap, 50000000) and a share loan of
1000000000 (far above the configured share cap, 5000000) are both evaluated
with an empty violation list and approved. -/
theorem claim7_counterexample :
    (App.validate_property_mortgage
        { asset_value := 1000000000, loan_amount := 600000000, location := "urban"
          purity := 0, circle_rate := 1000000000, share_index := "NIFTY50" }).errors = [] ∧
    (App.validate_property_mortgage
        { asset_value := 1000000000, loan_amount := 600000000, location := "urban"
          purity := 0, circle_rate := 1000000000, share_index := "NIFTY50" }).approved
      = true ∧
    (600000000 : ℚ) > 50000000 ∧
    (App.validate_share_pledge
        { asset_value := 2000000000, loan_amount := 1000000000, location := "urban"
          purity := 0, circle_rate := 0, share_index := "NIFTY50" }).errors = [] ∧
    (1000000000 : ℚ) > 5000000 := by
  have h : upperStr "NIFTY50" = "NIFTY50" := by decide
  refine ⟨?_, ?_, by norm_num, ?_, by norm_num⟩
  · norm_num [App.validate_property_mortgage, App.RBI_RULES_property]
  · norm_num [App.validate_property_mortgage, App.RBI_RULES_property]
  · norm_num [App.validate_share_pledge, App.RBI_RULES_shares, h]

/-- Claim C7 amended: the cap check exists in the Streamlit validators of
all three asset classes and in the Flask gold validator — whenever
loanAmount exceeds the class's configured maximum a cap violation is
recorded — but the Flask property and share validators configure no
maximum amount and never record a cap violation, however large the loan. -/
theorem claim7_amended_caps :
    (∀ data : App.RequestData,
        data.loan_amount > App.RBI_RULES_gold.max_amount →
          GoldViolation.loanExceedsMax ∈ (App.validate_gold_loan data).errors) ∧
    (∀ asset_value loan_amount purity : ℚ, ∀ location : String,
        loan_amount > Streamlit.RBI_RULES_gold_loan.max_loan_amount →
          GoldViolation.loanExceedsMax ∈
            (Streamlit.validate_gold asset_value loan_amount location purity).errors) ∧
    (∀ asset_value loan_amount circle_rate : ℚ,
        ∀ r ∈ Streamlit.validate_property asset_value loan_amount circle_rate,
          loan_amount > Streamlit.RBI_RULES_property_mortgage.max_loan_amount →
            PropertyViolation.loanExceedsMax ∈ r.errors) ∧
    (∀ asset_value loan_amount : ℚ, ∀ share_index : String,
        loan_amount > Streamlit.RBI_RULES_share_pledge.max_loan_amount →
          SharesViolation.loanExceedsMax ∈
            (Streamlit.validate_shares asset_value loan_amount share_index).errors) ∧
    (∀ data : App.RequestData,
        PropertyViolation.loanExceedsMax ∉ (App.validate_property_mortgage data).errors) ∧
    (∀ data : App.RequestData,
        SharesViolation.loanExceedsMax ∉ (App.validate_share_pledge data).errors) := by
  refine ⟨fun data hcap => ?_, fun av la p loc hcap => ?_, fun av la cr r hr hcap => ?_,
    fun av la idx hcap => ?_, fun data => ?_, fun data => ?_⟩
  · simp only [App.validate_gold_loan]
    split_ifs <;> simp_all
  · simp only [Streamlit.validate_gold]
    split_ifs <;> simp_all
  · simp only [Streamlit.validate_property, Option.mem_def, Option.map_eq_some'] at hr
    obtain ⟨e, _, rfl⟩ := hr
    simp only []
    split_ifs <;> simp_all
  · simp only [Streamlit.validate_shares]
    split_ifs <;> simp_all
  · simp only [App.validate_property_mortgage]
    split_ifs <;> simp_all
  · simp only [App.validate_share_pledge]
    split_ifs <;> simp_all

/-- Claim C8 counterexample: ltvUsedPercent is not nonzero whenever
assetValue > 0 — with assetValue 100 and loanAmount 0 both gold validators
report ltvUsedPercent = 0 (0 / 100 × 100 = 0). -/
theorem claim8_counterexample :
    (App.validate_gold_loan
        { asset_value := 100, loan_amount := 0, location := "urban"
          purity := 22, circle_rate := 0, share_index := "NIFTY50" }).ltv_used = 0 ∧
    (Streamlit.validate_gold 100 0 "Urban" 22).ltv_used = 0 ∧
    (100 : ℚ) > 0 := by
  refine ⟨?_, ?_, by norm_num⟩
  · norm_num [App.validate_gold_loan]
  · norm_num [Streamlit.validate_gold]

/-- Helper: the common ltvUsedPercent formula that all six validators
compute — `loan_amount / asset_value * 100 if asset_value > 0 else 0` — is
zero exactly when the asset value or the loan amount is, for nonnegative
asset values. -/
theorem ltv_used_formula_eq_zero_iff (asset_value loan_amount : ℚ)
    (hav : 0 ≤ asset_value) :
    ((if asset_value > 0 then loan_amount / asset_value * 100 else 0) = 0 ↔
      (asset_value = 0 ∨ loan_amount = 0)) := by
  rcases lt_or_eq_of_le hav with h | h
  · rw [if_pos h]
    constructor
    · intro hz
      rcases mul_eq_zero.mp hz with hz | hz
      · exact Or.inr (by
          field_simp at hz
          exact hz)
      · exact absurd hz (by norm_num)
    · rintro (hz | hz)
      · exact absurd h (by simp [hz])
      · simp [hz]
  · rw [if_neg (by rw [← h]; exact lt_irrefl 0)]
    simp [← h]

/-- Claim C8 amended: for requests with a nonnegative assetValue, every
validator of every asset class in both implementations reports
ltvUsedPercent = 0 exactly when assetValue = 0 or loanAmount = 0 (for the
Streamlit property validator, on the runs that return a result); in
particular it is 0 for every loanAmount when assetValue = 0, but it is
also 0 when loanAmount = 0 with assetValue > 0, so "nonzero whenever
assetValue > 0" fails. -/
theorem claim8_amended_ltv_used_zero_iff :
    (∀ data : App.RequestData, 0 ≤ data.asset_value →
        (((App.validate_gold_loan data).ltv_used = 0 ↔
            (data.asset_value = 0 ∨ data.loan_amount = 0)) ∧
         ((App.validate_property_mortgage data).ltv_used = 0 ↔
            (data.asset_value = 0 ∨ data.loan_amount = 0)) ∧
         ((App.validate_share_pledge data).ltv_used = 0 ↔
            (data.asset_value = 0 ∨ data.loan_amount = 0)))) ∧
    (∀ asset_value loan_amount purity : ℚ, ∀ location : String, 0 ≤ asset_value →
        ((Streamlit.validate_gold asset_value loan_amount location purity).ltv_used = 0 ↔
          (asset_value = 0 ∨ loan_amount = 0))) ∧
    (∀ asset_value loan_amount circle_rate : ℚ, 0 ≤ asset_value →
        ∀ r ∈ Streamlit.validate_property asset_value loan_amount circle_rate,
          (r.ltv_used = 0 ↔ (asset_value = 0 ∨ loan_amount = 0))) ∧
    (∀ asset_value loan_amount : ℚ, ∀ share_index : String, 0 ≤ asset_value →
        ((Streamlit.validate_shares asset_value loan_amount share_index).ltv_used = 0 ↔
          (asset_value = 0 ∨ loan_amount = 0))) := by
  refine ⟨fun data hav => ⟨?_, ?_, ?_⟩, fun av la p loc hav => ?_,
    fun av la cr hav r hr => ?_, fun av la idx hav => ?_⟩
  · simp only [App.validate_gold_loan]
    exact ltv_used_formula_eq_zero_iff data.asset_value data.loan_amount hav
  · simp only [App.validate_property_mortgage]
    exact ltv_used_formula_eq_zero_iff data.asset_value data.loan_amount hav
  · simp only [App.validate_share_pledge]
    exact ltv_used_formula_eq_zero_iff data.asset_value data.loan_amount hav
  · simp only [Streamlit.validate_gold]
    exact ltv_used_formula_eq_zero_iff av la hav
  · simp only [Streamlit.validate_property, Option.mem_def, Option.map_eq_some'] at hr
    obtain ⟨e, _, rfl⟩ := hr
    simp only
    exact ltv_used_formula_eq_zero_iff av la hav
  · simp only [Streamlit.validate_shares]
    exact ltv_used_formula_eq_zero_iff av la hav

/-- Helper: the length of one conditional append step. -/
theorem length_ite_append {α : Type} (c : Prop) [Decidable c] (l : List α) (x : α) :
    (if c then l ++ [x] else l).length = l.length + (if c then 1 else 0) := by
  split_ifs <;> simp

/-- Helper: an indicator is monotone along an implication of conditions. -/
theorem ite_one_le_ite_one {c d : Prop} [Decidable c] [Decidable d] (h : c → d) :
    (if c then (1 : ℕ) else 0) ≤ (if d then 1 else 0) := by
  split_ifs <;> simp_all

/-- Violation count of the Flask gold validator, as a sum of indicators. -/
theorem app_gold_errors_length (data : App.RequestData) :
    (App.validate_gold_loan data).errors.length =
      (if data.purity < App.RBI_RULES_gold.min_purity then 1 else 0) +
      (if data.asset_value > 0 ∧
          data.loan_amount / data.asset_value >
            (if lowerStr data.location = "urban" then App.RBI_RULES_gold.urban_ltv
             else App.RBI_RULES_gold.rural_ltv) then 1 else 0) +
      (if data.loan_amount > App.RBI_RULES_gold.max_amount then 1 else 0) := by
  simp only [App.validate_gold_loan]
  split_ifs <;> simp_all

/-- Violation count of the Flask property validator, as a sum of
indicators. -/
theorem app_property_errors_length (data : App.RequestData) :
    (App.validate_property_mortgage data).errors.length =
      (if (data.circle_rate > 0 ∧ data.asset_value > 0) ∧
          data.circle_rate <
            data.asset_value * App.RBI_RULES_property.circle_rate_threshold then 1 else 0) +
      (if data.asset_value > 0 ∧
          data.loan_amount / data.asset_value > App.RBI_RULES_property.max_ltv
       then 1 else 0) := by
  simp only [App.validate_property_mortgage]
  split_ifs <;> simp_all

/-- Violation count of the Flask share validator, as a sum of indicators. -/
theorem app_shares_errors_length (data : App.RequestData) :
    (App.validate_share_pledge data).errors.length =
      (if upperStr data.share_index ∉ App.RBI_RULES_shares.eligible_indices then 1 else 0) +
      (if data.asset_value > 0 ∧
          data.loan_amount / data.asset_value > App.RBI_RULES_shares.ltv then 1 else 0) := by
  simp only [App.validate_share_pledge]
  split_ifs <;> simp_all

/-- Violation count of the Streamlit gold validator, as a sum of
indicators. -/
theorem streamlit_gold_errors_length (asset_value loan_amount purity : ℚ) (location : String) :
    (Streamlit.validate_gold asset_value loan_amount location purity).errors.length =
      (if purity < Streamlit.RBI_RULES_gold_loan.purity_min then 1 else 0) +
      (if loan_amount >
          asset_value *
            (if location = "Urban" then Streamlit.RBI_RULES_gold_loan.max_ltv_urban
             else Streamlit.RBI_RULES_gold_loan.max_ltv_rural) then 1 else 0) +
      (if loan_amount > Streamlit.RBI_RULES_gold_loan.max_loan_amount then 1 else 0) := by
  simp only [Streamlit.validate_gold]
  split_ifs <;> simp_all

/-- Violation count of the Streamlit property validator on the runs that
return, as a sum of indicators. -/
theorem streamlit_property_errors_length (asset_value loan_amount circle_rate : ℚ)
    (r : ValidationResult PropertyViolation)
    (h : Streamlit.validate_property asset_value loan_amount circle_rate = some r) :
    r.errors.length =
      (if asset_value > 0 ∧
          |asset_value - circle_rate| / circle_rate >
            Streamlit.RBI_RULES_property_mortgage.circle_rate_tolerance then 1 else 0) +
      (if loan_amount > asset_value * Streamlit.RBI_RULES_property_mortgage.max_ltv
       then 1 else 0) +
      (if loan_amount > Streamlit.RBI_RULES_property_mortgage.max_loan_amount
       then 1 else 0) := by
  simp only [Streamlit.validate_property, Option.map_eq_some'] at h
  obtain ⟨e, he, rfl⟩ := h
  revert he
  split_ifs <;> intro he <;> first
    | exact he.elim
    | exact Option.noConfusion he
    | (injection he with he2; subst he2; simp_all)

/-- Violation count of the Streamlit share validator, as a sum of
indicators. -/
theorem streamlit_shares_errors_length (asset_value loan_amount : ℚ) (share_index : String) :
    (Streamlit.validate_shares asset_value loan_amount share_index).errors.length =
      (if loan_amount >
          asset_value *
            (if share_index = "NIFTY50" then Streamlit.RBI_RULES_share_pledge.max_ltv_nifty50
             else if share_index = "NIFTY100" then
               Streamlit.RBI_RULES_share_pledge.max_ltv_nifty100
             else Streamlit.RBI_RULES_share_pledge.max_ltv_other) then 1 else 0) +
      (if loan_amount > Streamlit.RBI_RULES_share_pledge.max_loan_amount then 1 else 0) := by
  simp only [Streamlit.validate_shares]
  split_ifs <;> simp_all

/-- Claim C9: in both implementations and for every asset class, increasing
the loan amount while holding every other request field fixed never
decreases the number of recorded violations (for the Streamlit property
validator, on the runs that return a result). -/
theorem claim9_monotonic_in_loan_amount :
    (∀ data : App.RequestData, ∀ la1 la2 : ℚ, la1 ≤ la2 →
        (App.validate_gold_loan { data with loan_amount := la1 }).errors.length ≤
          (App.validate_gold_loan { data with loan_amount := la2 }).errors.length) ∧
    (∀ data : App.RequestData, ∀ la1 la2 : ℚ, la1 ≤ la2 →
        (App.validate_property_mortgage { data with loan_amount := la1 }).errors.length ≤
          (App.validate_property_mortgage { data with loan_amount := la2 }).errors.length) ∧
    (∀ data : App.RequestData, ∀ la1 la2 : ℚ, la1 ≤ la2 →
        (App.validate_share_pledge { data with loan_amount := la1 }).errors.length ≤
          (App.validate_share_pledge { data with loan_amount := la2 }).errors.length) ∧
    (∀ asset_value purity la1 la2 : ℚ, ∀ location : String, la1 ≤ la2 →
        (Streamlit.validate_gold asset_value la1 location purity).errors.length ≤
          (Streamlit.validate_gold asset_value la2 location purity).errors.length) ∧
    (∀ asset_value circle_rate la1 la2 : ℚ, la1 ≤ la2 →
        ∀ r1 r2 : ValidationResult PropertyViolation,
          Streamlit.validate_property asset_value la1 circle_rate = some r1 →
          Streamlit.validate_property asset_value la2 circle_rate = some r2 →
          r1.errors.length ≤ r2.errors.length) ∧
    (∀ asset_value la1 la2 : ℚ, ∀ share_index : String, la1 ≤ la2 →
        (Streamlit.validate_shares asset_value la1 share_index).errors.length ≤
          (Streamlit.validate_shares asset_value la2 share_index).errors.length) := by
  refine ⟨fun data la1 la2 hle => ?_, fun data la1 la2 hle => ?_, fun data la1 la2 hle => ?_,
    fun av p la1 la2 loc hle => ?_, fun av cr la1 la2 hle r1 r2 h1 h2 => ?_,
    fun av la1 la2 idx hle => ?_⟩
  · rw [app_gold_errors_length, app_gold_errors_length]
    simp only
    refine Nat.add_le_add (Nat.add_le_add (le_refl _) (ite_one_le_ite_one ?_))
      (ite_one_le_ite_one ?_)
    · exact fun hc => ⟨hc.1, lt_of_lt_of_le hc.2 (div_le_div_of_nonneg_right hle hc.1.le)⟩
    · exact fun hc => lt_of_lt_of_le hc hle
  · rw [app_property_errors_length, app_property_errors_length]
    simp only
    refine Nat.add_le_add (le_refl _) (ite_one_le_ite_one ?_)
    exact fun hc => ⟨hc.1, lt_of_lt_of_le hc.2 (div_le_div_of_nonneg_right hle hc.1.le)⟩
  · rw [app_shares_errors_length, app_shares_errors_length]
    simp only
    refine Nat.add_le_add (le_refl _) (ite_one_le_ite_one ?_)
    exact fun hc => ⟨hc.1, lt_of_lt_of_le hc.2 (div_le_div_of_nonneg_right hle hc.1.le)⟩
  · rw [streamlit_gold_errors_length, streamlit_gold_errors_length]
    refine Nat.add_le_add (Nat.add_le_add (le_refl _) (ite_one_le_ite_one ?_))
      (ite_one_le_ite_one ?_)
    · exact fun hc => lt_of_lt_of_le hc hle
    · exact fun hc => lt_of_lt_of_le hc hle
  · rw [streamlit_property_errors_length av la1 cr r1 h1,
      streamlit_property_errors_length av la2 cr r2 h2]
    refine Nat.add_le_add (Nat.add_le_add (le_refl _) (ite_one_le_ite_one ?_))
      (ite_one_le_ite_one ?_)
    · exact fun hc => lt_of_lt_of_le hc hle
    · exact fun hc => lt_of_lt_of_le hc hle
  · rw [streamlit_shares_errors_length, streamlit_shares_errors_length]
    refine Nat.add_le_add (ite_one_le_ite_one ?_) (ite_one_le_ite_one ?_)
    · exact fun hc => lt_of_lt_of_le hc hle
    · exact fun hc => lt_of_lt_of_le hc hle

/-- Claim C10: in both gold validators the location field is never itself a
ground for rejection and unknown values are silently defaulted to the rural
branch: any location other than the urban spelling the validator compares
against ("urban" after lowercasing in the Flask validator, the exact string
"Urban" in the Streamlit one) produces exactly the result of the canonical
rural request — same approval, same violations, everything — with the rural
ceiling applied (the more permissive 0.90 in the Flask validator, 0.70 in
the Streamlit one); no violation ever depends on the location beyond the
ceiling choice. -/
theorem claim10_location_silently_defaulted :
    (∀ data : App.RequestData, lowerStr data.location ≠ "urban" →
        App.validate_gold_loan data
            = App.validate_gold_loan { data with location := "Rural" } ∧
        (App.validate_gold_loan data).ltv_limit = App.RBI_RULES_gold.rural_ltv ∧
        App.RBI_RULES_gold.rural_ltv > App.RBI_RULES_gold.urban_ltv) ∧
    (∀ asset_value loan_amount purity : ℚ, ∀ location : String, location ≠ "Urban" →
        Streamlit.validate_gold asset_value loan_amount location purity
            = Streamlit.validate_gold asset_value loan_amount "Rural" purity ∧
        (Streamlit.validate_gold asset_value loan_amount location purity).ltv_limit
            = Streamlit.RBI_RULES_gold_loan.max_ltv_rural) := by
  have hR : lowerStr "Rural" ≠ "urban" := by decide
  have hR2 : ("Rural" : String) ≠ "Urban" := by decide
  constructor
  · intro data h
    refine ⟨?_, ?_, by norm_num [App.RBI_RULES_gold]⟩
    · simp [App.validate_gold_loan, h, hR]
    · simp [App.validate_gold_loan, h]
  · intro av la p loc h
    constructor
    · simp [Streamlit.validate_gold, h, hR2]
    · simp [Streamlit.validate_gold, h]
